import Mathlib

/-!
Shallow embedding of the TGMS worker core (iglive_tgms_worker).

The embedding covers:
* `database.py` — the notification-slot store (`live_notification_messages`)
  and the managed-group table operations used by the broadcast engine;
* `group_sender.py` — `GroupMessageSender.send_to_groups`: per-group slot
  claiming, failure classification, failure-counter bookkeeping, deactivation;
* `main.py` — the job payload parse stage of `process_tgms_job`, the
  finalization of `worker_main_loop`, and the link/image cycling logic of the
  `send_to_groups` job type.

The persistent store is modelled as in-memory association lists; wall-clock
time (`datetime.now`) is passed in explicitly as an integer number of seconds.
External effects (Telegram API calls) are modelled as inputs (per-group send
outcomes) and recorded effects (attempted deletes/sends).
-/

namespace TgmsWorker

/-! ## Notification slot store (`live_notification_messages` table)

A row is keyed by `(group_id, username)`.  The table stores `group_id` as
`str(group_id)` in the source; `Int.repr` is injective on `Int`, so keying by
the integer itself is an equivalent model.  `created_at` is a timestamp in
seconds; `message_id` is the raw integer column (the source inserts the
sentinel `0` for a freshly claimed slot with no message yet). -/

structure SlotKey where
  group_id : Int
  username : String
deriving DecidableEq, Repr

structure SlotRow where
  created_at : Int
  message_id : Int
deriving DecidableEq, Repr

/-- The slot table: association list from key to row (at most one row per key
in any state reachable by the operations below; lookups take the first). -/
abbrev SlotStore := List (SlotKey × SlotRow)

/-- SELECT ... FROM live_notification_messages WHERE group_id = :g AND username = :u -/
def lookupSlot (db : SlotStore) (k : SlotKey) : Option SlotRow :=
  match db with
  | [] => none
  | p :: rest => if p.1 = k then some p.2 else lookupSlot rest k

/-- INSERT INTO live_notification_messages VALUES (:g, :u, 0, NOW())
ON CONFLICT (group_id, username) DO UPDATE SET created_at = NOW()
(the upsert performed by `claim_notification_slot`: on conflict only the
timestamp is written, the stored `message_id` is preserved; a fresh insert
gets `message_id = 0`). -/
def slotClaimUpsert (db : SlotStore) (k : SlotKey) (now : Int) : SlotStore :=
  match lookupSlot db k with
  | some _ => db.map (fun p => if p.1 = k then (k, ⟨now, p.2.message_id⟩) else p)
  | none => db ++ [(k, ⟨now, 0⟩)]

/-- INSERT INTO live_notification_messages VALUES (:g, :u, :message_id, NOW())
ON CONFLICT (group_id, username) DO UPDATE SET message_id = EXCLUDED.message_id,
created_at = NOW() (the upsert performed by `save_notification`). -/
def slotSaveUpsert (db : SlotStore) (k : SlotKey) (message_id : Int) (now : Int) :
    SlotStore :=
  match lookupSlot db k with
  | some _ => db.map (fun p => if p.1 = k then (k, ⟨now, message_id⟩) else p)
  | none => db ++ [(k, ⟨now, message_id⟩)]

/-- DatabaseManager.get_last_notification: returns the row's `message_id`
(`row[0] if row else None`) — note the raw column value, which may be `0`. -/
def get_last_notification (db : SlotStore) (group_id : Int) (username : String) :
    Option Int :=
  (lookupSlot db ⟨group_id, username⟩).map (·.message_id)

/-- DatabaseManager.save_notification. -/
def save_notification (now : Int) (db : SlotStore) (group_id : Int)
    (username : String) (message_id : Int) : SlotStore :=
  slotSaveUpsert db ⟨group_id, username⟩ message_id now

/-- DatabaseManager.claim_notification_slot (database.py lines 430-475).
Reads the row for `(group_id, username)`.  The previous message id is
validated as `row[1] if row[1] and row[1] > 0 else None`, i.e. `some` exactly
when the stored id is positive.  If the row's `created_at` is younger than 15
seconds the function returns `(False, None)` at once — without reaching the
upsert.  Otherwise it upserts (timestamp to now, message id preserved, `0` on
a fresh insert) and returns `(True, current_message_id)`. -/
def claim_notification_slot (now : Int) (db : SlotStore) (group_id : Int)
    (username : String) : (Bool × Option Int) × SlotStore :=
  let k : SlotKey := ⟨group_id, username⟩
  match lookupSlot db k with
  | some row =>
      let current_message_id : Option Int :=
        if row.message_id > 0 then some row.message_id else none
      if now - row.created_at < 15 then
        ((false, none), db)
      else
        ((true, current_message_id), slotClaimUpsert db k now)
  | none => ((true, none), slotClaimUpsert db k now)

/-! ## Managed groups (`managed_groups` table) -/

structure GroupRow where
  group_id : Int
  final_message_allowed : Bool
  consecutive_failures : Nat
  is_active : Bool
deriving DecidableEq, Repr

/-- SELECT ... FROM managed_groups WHERE group_id = :group_id (first match). -/
def lookupGroup (gs : List GroupRow) (g : Int) : Option GroupRow :=
  match gs with
  | [] => none
  | r :: rest => if r.group_id = g then some r else lookupGroup rest g

/-- UPDATE managed_groups SET ... WHERE group_id = :group_id — applies `f` to
every row whose `group_id` matches. -/
def updateGroup (f : GroupRow → GroupRow) (gs : List GroupRow) (g : Int) :
    List GroupRow :=
  gs.map (fun r => if r.group_id = g then f r else r)

/-- The worker's persistent state relevant to the broadcast engine. -/
structure DBState where
  groups : List GroupRow
  slots : SlotStore
deriving DecidableEq, Repr

/-- DatabaseManager.deactivate_group: `SET is_active = false` (the reason
string is only logged, not stored). -/
def deactivate_group (db : DBState) (g : Int) : DBState :=
  { db with groups := updateGroup (fun r => { r with is_active := false }) db.groups g }

/-- DatabaseManager.increment_failure_count:
`SET consecutive_failures = COALESCE(consecutive_failures, 0) + 1 ... RETURNING
consecutive_failures`; the Python wrapper returns `row[0] if row else 0`. -/
def increment_failure_count (db : DBState) (g : Int) : DBState × Nat :=
  let groups := updateGroup
    (fun r => { r with consecutive_failures := r.consecutive_failures + 1 }) db.groups g
  ({ db with groups := groups },
   match lookupGroup groups g with
   | some r => r.consecutive_failures
   | none => 0)

/-- DatabaseManager.reset_failure_count: `SET consecutive_failures = 0`. -/
def reset_failure_count (db : DBState) (g : Int) : DBState :=
  { db with groups := updateGroup (fun r => { r with consecutive_failures := 0 }) db.groups g }

/-! ## Broadcast engine (`group_sender.py`, `GroupMessageSender.send_to_groups`)

The Telegram API is external: the outcome of the send call for each group is an
input (`SendResult`), and the API calls the engine attempts (delete previous
message, send) are recorded in an `Effects` log.  Rate limiting, debug-code
generation and the caption markup have no effect on the modelled state and are
not represented. -/

/-- Outcome of `api.send_photo` / `api.send_message` for one group: `ok` with
the new message id, or an error (a non-`ok` response raises
`Exception(response.get("error"))`, so both transport and API failures surface
as an error string). -/
inductive SendResult where
  | ok (message_id : Int)
  | err (error_msg : String)
deriving DecidableEq, Repr

/-- Running totals of `send_to_groups` (the `results` dict). -/
structure StepResults where
  total : Nat
  success : Nat
  sent_to : List Int
  failed : List (Int × String)
deriving DecidableEq, Repr

/-- External calls attempted while iterating groups, for stating "no send /
no deletion is attempted". -/
structure Effects where
  deletes : List (Int × Int)
  sends : List Int
deriving DecidableEq, Repr

/-- Python `pattern in s` restricted to the start: `pattern` is a prefix of
`hay`. -/
def isPrefixChars : List Char → List Char → Bool
  | [], _ => true
  | _ :: _, [] => false
  | p :: ps, h :: hs => p = h && isPrefixChars ps hs

/-- Python substring containment `pattern in hay` on character lists. -/
def containsChars (pattern : List Char) (hay : List Char) : Bool :=
  isPrefixChars pattern hay ||
    match hay with
    | [] => false
    | _ :: hs => containsChars pattern hs

/-- Python `str.lower()` (ASCII case folding, which covers the patterns the
source compares against). -/
def pyLower (s : String) : List Char :=
  s.toList.map Char.toLower

/-- The failure classification of group_sender.py line 169:
`"403" in error_msg or "Forbidden" in error_msg or "kicked" in error_msg.lower()`. -/
def isCriticalError (error_msg : String) : Bool :=
  containsChars "403".toList error_msg.toList
    || containsChars "Forbidden".toList error_msg.toList
    || containsChars "kicked".toList (pyLower error_msg)

/-- Python truthiness of the value returned by `claim_notification_slot`: the
function returns a 2-tuple, and `not (b, m)` is `False` for every pair — a
non-empty tuple is always truthy — so `if not self.db.claim_notification_slot(...)`
(group_sender.py line 106) never takes the skip branch. -/
def pyNotOfPair (_ : Bool × Option Int) : Bool :=
  false

/-- Python truthiness of the optional message id returned by
`get_last_notification` (`if last_msg_id:`): `None` and `0` are falsy. -/
def pyTruthyOptInt : Option Int → Bool
  | none => false
  | some m => m ≠ 0

/-- The send phase of the per-group loop body (group_sender.py lines 123-185):
attempt the send, then on success save the notification, reset the failure
counter and count as sent; on failure classify the error, deactivating on a
critical error and otherwise incrementing the failure counter, deactivating
once it reaches `max_consecutive_failures` (7). -/
def sendPhase (now : Int) (username : Option String) (db : DBState)
    (res : StepResults) (eff : Effects) (gid : Int) (outcome : SendResult) :
    DBState × StepResults × Effects :=
  let eff := { eff with sends := eff.sends ++ [gid] }
  match outcome with
  | .ok message_id =>
      let db :=
        match username with
        | some u => { db with slots := save_notification now db.slots gid u message_id }
        | none => db
      let db := reset_failure_count db gid
      (db,
       { res with success := res.success + 1, sent_to := res.sent_to ++ [gid] },
       eff)
  | .err e =>
      if isCriticalError e then
        (deactivate_group db gid,
         { res with failed := res.failed ++ [(gid, e)] },
         eff)
      else
        let p := increment_failure_count db gid
        let db := if p.2 ≥ 7 then deactivate_group p.1 gid else p.1
        (db,
         { res with failed := res.failed ++ [(gid, e)] },
         eff)

/-- One iteration of the loop over groups in `send_to_groups`
(group_sender.py lines 85-185).  If `final_message_allowed` is false the group
is skipped.  If a recipient username is given, `claim_notification_slot` is
called (mutating the slot store); its 2-tuple result is then tested with
`if not ...`, which — the tuple being always truthy — never skips, after which
the previous notification is looked up and, when truthy, a delete is attempted.
Then the send phase runs with the given outcome. -/
def processGroup (now : Int) (username : Option String) (outcome : SendResult)
    (st : DBState × StepResults × Effects) (group : GroupRow) :
    DBState × StepResults × Effects :=
  let (db, res, eff) := st
  let gid := group.group_id
  if group.final_message_allowed = false then (db, res, eff)
  else
    match username with
    | some u =>
        let claimed := claim_notification_slot now db.slots gid u
        let db1 : DBState := { db with slots := claimed.2 }
        if pyNotOfPair claimed.1 then
          (db1, res, eff)
        else
          let last_msg_id := get_last_notification db1.slots gid u
          let eff1 :=
            if pyTruthyOptInt last_msg_id then
              { eff with deletes := eff.deletes ++ [(gid, last_msg_id.getD 0)] }
            else eff
          sendPhase now (some u) db1 res eff1 gid outcome
    | none => sendPhase now none db res eff gid outcome

/-- GroupMessageSender.send_to_groups: iterate over the active managed groups
(`get_active_managed_groups`), with `results["total"]` the number of active
groups.  The send outcome for each group is given by `outcomes`. -/
def send_to_groups (now : Int) (username : Option String)
    (outcomes : Int → SendResult) (db : DBState) :
    DBState × StepResults × Effects :=
  let groups := db.groups.filter (·.is_active)
  groups.foldl (fun st g => processGroup now username (outcomes g.group_id) st g)
    (db, ⟨groups.length, 0, [], []⟩, ⟨[], []⟩)

/-! ## Job queue consumer (`main.py`)

`worker_main_loop` finalization (lines 331-353): after `process_tgms_job`
returns a boolean `success`, the job row is updated with
`status = 'completed'` on success; on failure `'pending'` when
`retries < 3` else `'failed'`, and `retries = retries + 1 if not success else
retries`. -/

/-- The values written back by the finalization UPDATE. -/
structure JobFinal where
  status : String
  retries : Nat
deriving DecidableEq, Repr

/-- The finalization of `worker_main_loop` (main.py lines 331-353), as a
function of the handler outcome and the job's stored retry count. -/
def finalizeJob (success : Bool) (retries : Nat) : JobFinal :=
  let final_status :=
    if success then "completed"
    else if retries < 3 then "pending" else "failed"
  { status := final_status
    retries := if success then retries else retries + 1 }

/-- A JSON value, the result of `json.loads` on a job payload. -/
inductive Json where
  | null
  | bool (b : Bool)
  | num (n : Int)
  | str (s : String)
  | arr (elems : List Json)
  | obj (fields : List (String × Json))

/-- A job's raw `payload` column as seen by `process_tgms_job`: a string (to
be parsed with `json.loads`), an already-structured dict, or any other type
(rejected). -/
inductive PayloadData where
  | strPayload (s : String)
  | dictPayload (d : Json)
  | otherPayload

/-- The payload parse stage of `process_tgms_job` (main.py lines 55-68):
a string payload is parsed with `json.loads` (modelled by the function
`jsonLoads`, `none` on a `JSONDecodeError`); a dict payload is used as is; any
other payload type is invalid.  A `none` result makes `process_tgms_job`
return `False` at once. -/
def parsePayload (jsonLoads : String → Option Json) :
    PayloadData → Option Json
  | .strPayload s => jsonLoads s
  | .dictPayload d => some d
  | .otherPayload => none

/-- `process_tgms_job` followed by the finalization of `worker_main_loop`: a
payload that fails to parse makes the handler return `False` (main.py lines
55-68), and the job is then finalized by the generic policy of lines 331-353;
otherwise the dispatch on the job type (abstracted as `dispatch`) produces the
handler outcome. -/
def processJobThenFinalize (jsonLoads : String → Option Json)
    (dispatch : Json → Bool) (payload : PayloadData) (retries : Nat) : JobFinal :=
  match parsePayload jsonLoads payload with
  | none => finalizeJob false retries
  | some p => finalizeJob (dispatch p) retries

/-! ## Link cycling (`main.py`, `send_to_groups` job type, lines 176-196)

A recipient's `insta_links` record holds `monetized_url`, a newline-separated
list of links, and `last_used_link_index`, the index used by the previous
send (`NULL` on a fresh record). -/

/-- The fields of the `insta_links` record used by the link selection. -/
structure InstaLink where
  monetized_url : Option String
  last_used_link_index : Option Int
  general_link : Option String
  link : Option String
deriving DecidableEq, Repr

/-- Python `a or b` on two optional strings: `None` and the empty string are
falsy (`insta_link_details.get('general_link') or insta_link_details.get('link')`). -/
def pyOrStr (a b : Option String) : Option String :=
  match a with
  | some s => if s ≠ "" then some s else b
  | none => b

/-- Python `str.split('\n')` on character lists. -/
def splitNl : List Char → List (List Char)
  | [] => [[]]
  | c :: rest =>
      match splitNl rest with
      | [] => [[]]
      | w :: ws => if c = '\n' then [] :: (w :: ws) else (c :: w) :: ws

/-- Python `str.strip()`: drop whitespace from both ends. -/
def pyStrip (cs : List Char) : List Char :=
  ((cs.dropWhile Char.isWhitespace).reverse.dropWhile Char.isWhitespace).reverse

/-- The list-comprehension
`[url.strip() for url in monetized_urls_str.split('\n') if url.strip()]`. -/
def splitLinks (s : String) : List String :=
  ((splitNl s.toList).map (fun w => String.mk (pyStrip w))).filter (fun u => u ≠ "")

/-- The link-cycling logic of main.py lines 176-196: when the record has a
non-empty `monetized_url` string that splits into a non-empty link list, the
next index is `(last_used_link_index + 1) % len(link_urls)` (with `None`
treated as `-1`), the link at that index becomes the watch link and the index
is persisted back to the record; otherwise fall back to
`general_link or link` and leave the record unchanged. -/
def selectWatchLink (r : InstaLink) : Option String × InstaLink :=
  match r.monetized_url with
  | some monetized_urls_str =>
      if monetized_urls_str ≠ "" then
        let link_urls := splitLinks monetized_urls_str
        if link_urls ≠ [] then
          let last_link_index := r.last_used_link_index.getD (-1)
          let next_link_index := (last_link_index + 1) % (link_urls.length : Int)
          (some (link_urls.getD next_link_index.toNat ""),
           { r with last_used_link_index := some next_link_index })
        else (pyOrStr r.general_link r.link, r)
      else (pyOrStr r.general_link r.link, r)
  | none => (pyOrStr r.general_link r.link, r)

/-- A run of consecutive `send_to_groups` jobs for the same recipient: each
send selects a watch link via `selectWatchLink` and persists the updated
record, which the next send reads back.  Returns the list of
(selected watch link, persisted last-used index) pairs, in send order. -/
def runSends (r : InstaLink) : Nat → List (Option String × Option Int)
  | 0 => []
  | k + 1 =>
      let step := selectWatchLink r
      (step.1, step.2.last_used_link_index) :: runSends step.2 k

/-- A run of consecutive non-critical send failures for one group: each step
is the failure branch of the per-group send phase (no recipient given; the
failure handling does not depend on the recipient). -/
def applyFailures (now : Int) (gid : Int) (e : String) : Nat → DBState → DBState
  | 0, db => db
  | k + 1, db =>
      applyFailures now gid e k
        (sendPhase now none db ⟨0, 0, [], []⟩ ⟨[], []⟩ gid (.err e)).1

/-! ## Supporting lemmas -/

theorem lookupGroup_updateGroup (f : GroupRow → GroupRow) (gs : List GroupRow)
    (g : Int) (hf : ∀ r, (f r).group_id = r.group_id) :
    lookupGroup (updateGroup f gs g) g = (lookupGroup gs g).map f := by
  induction gs with
  | nil => rfl
  | cons r rest ih =>
      by_cases h : r.group_id = g
      · simp [updateGroup, lookupGroup, h, hf r]
      · simpa [updateGroup, lookupGroup, h] using ih

theorem lookupSlot_append_right (db l : SlotStore) (k : SlotKey)
    (h : lookupSlot db k = none) :
    lookupSlot (db ++ l) k = lookupSlot l k := by
  induction db with
  | nil => rfl
  | cons p rest ih =>
      by_cases hk : p.1 = k
      · simp [lookupSlot, hk] at h
      · simp only [lookupSlot, hk, if_false] at h
        simp only [List.cons_append, lookupSlot, if_neg hk]
        exact ih h

theorem lookupSlot_map_upsert (db : SlotStore) (k : SlotKey) (row : SlotRow)
    (now : Int) (h : lookupSlot db k = some row) :
    lookupSlot
      (db.map (fun p => if p.1 = k then (k, (⟨now, p.2.message_id⟩ : SlotRow)) else p)) k
      = some ⟨now, row.message_id⟩ := by
  induction db with
  | nil => simp [lookupSlot] at h
  | cons p rest ih =>
      simp only [lookupSlot] at h
      by_cases hk : p.1 = k
      · rw [if_pos hk] at h
        injection h with h
        subst h
        simp [lookupSlot, hk]
      · rw [if_neg hk] at h
        simp only [List.map_cons]
        rw [if_neg hk]
        simp only [lookupSlot, if_neg hk]
        exact ih h

theorem lookupSlot_slotClaimUpsert (db : SlotStore) (k : SlotKey) (now : Int) :
    lookupSlot (slotClaimUpsert db k now) k =
      some ⟨now, (match lookupSlot db k with
                  | some row => row.message_id
                  | none => 0)⟩ := by
  cases h : lookupSlot db k with
  | some row =>
      simpa [slotClaimUpsert, h] using lookupSlot_map_upsert db k row now h
  | none =>
      simp [slotClaimUpsert, h, lookupSlot_append_right db _ k h, lookupSlot]

/-! ## Claim theorems -/

/-- C6: for every (group, recipient) pair, a second slot claim made within 15
seconds of the stored slot timestamp always returns
`(claimed := false, previous_message_id := none)`. -/
theorem claim_within_window_rejected (now : Int) (db : SlotStore) (g : Int)
    (u : String) (row : SlotRow)
    (hrow : lookupSlot db ⟨g, u⟩ = some row)
    (hfresh : now - row.created_at < 15) :
    (claim_notification_slot now db g u).1 = (false, none) := by
  simp [claim_notification_slot, hrow, hfresh]

/-- Witness for C6 at a concrete store: a slot for `(-1001, "alice")` written
at time 95 is claimed again at time 100. -/
theorem claim_within_window_rejected_witness :
    (claim_notification_slot 100 [(⟨-1001, "alice"⟩, ⟨95, 7⟩)] (-1001) "alice").1
      = (false, none) :=
  claim_within_window_rejected 100 [(⟨-1001, "alice"⟩, ⟨95, 7⟩)] (-1001) "alice"
    ⟨95, 7⟩ (by decide) (by decide)

/-- C7 counterexample: a claim within the 15-second debounce window is
rejected AND leaves the store row untouched — the row written at time 95 still
has `created_at = 95` (not the claim time 100) afterwards, so the claimed
"upsert on every claim" does not happen on the rejected path
(`claim_notification_slot` returns before reaching the upsert). -/
theorem rejected_claim_leaves_store_unchanged :
    (claim_notification_slot 100 [(⟨-1001, "alice"⟩, ⟨95, 7⟩)] (-1001) "alice").1.1
      = false ∧
    (claim_notification_slot 100 [(⟨-1001, "alice"⟩, ⟨95, 7⟩)] (-1001) "alice").2
      = [(⟨-1001, "alice"⟩, ⟨95, 7⟩)] ∧
    lookupSlot
      (claim_notification_slot 100 [(⟨-1001, "alice"⟩, ⟨95, 7⟩)] (-1001) "alice").2
      ⟨-1001, "alice"⟩ = some ⟨95, 7⟩ := by
  decide

/-- C7 as amended: a claim within the debounce window is rejected to the
caller and performs no upsert at all (the store is returned unchanged); the
slot row is upserted exactly when the claim is accepted, in which case its
timestamp is set to the claim time (with the stored message id preserved,
`0` on a fresh insert). -/
theorem claim_upsert_only_when_accepted (now : Int) (db : SlotStore) (g : Int)
    (u : String) :
    ((claim_notification_slot now db g u).1.1 = false →
      (claim_notification_slot now db g u).2 = db) ∧
    ((claim_notification_slot now db g u).1.1 = true →
      lookupSlot (claim_notification_slot now db g u).2 ⟨g, u⟩ =
        some ⟨now, (match lookupSlot db ⟨g, u⟩ with
                    | some row => row.message_id
                    | none => 0)⟩) := by
  cases h : lookupSlot db ⟨g, u⟩ with
  | some row =>
      by_cases hf : now - row.created_at < 15
      · constructor
        · intro _
          simp [claim_notification_slot, h, hf]
        · intro hacc
          simp [claim_notification_slot, h, hf] at hacc
      · constructor
        · intro hrej
          simp [claim_notification_slot, h, hf] at hrej
        · intro _
          simp only [claim_notification_slot, h, hf, if_false]
          simpa [h] using lookupSlot_slotClaimUpsert db ⟨g, u⟩ now
  | none =>
      constructor
      · intro hrej
        simp [claim_notification_slot, h] at hrej
      · intro _
        simp only [claim_notification_slot, h]
        simpa [h] using lookupSlot_slotClaimUpsert db ⟨g, u⟩ now

/-- Witness for C7's amended statement at concrete stores: a rejected claim
(row written at 95, claim at 100) returns the store unchanged, and an accepted
claim (row written at 0, claim at 100) rewrites the row timestamp. -/
theorem claim_upsert_only_when_accepted_witness :
    ((claim_notification_slot 100 [(⟨-1001, "alice"⟩, ⟨95, 7⟩)] (-1001) "alice").1.1
        = false →
      (claim_notification_slot 100 [(⟨-1001, "alice"⟩, ⟨95, 7⟩)] (-1001) "alice").2
        = [(⟨-1001, "alice"⟩, ⟨95, 7⟩)]) ∧
    ((claim_notification_slot 100 [(⟨-1001, "alice"⟩, ⟨0, 7⟩)] (-1001) "alice").1.1
        = true →
      lookupSlot
        (claim_notification_slot 100 [(⟨-1001, "alice"⟩, ⟨0, 7⟩)] (-1001) "alice").2
        ⟨-1001, "alice"⟩ = some ⟨100, 7⟩) :=
  ⟨(claim_upsert_only_when_accepted 100 [(⟨-1001, "alice"⟩, ⟨95, 7⟩)] (-1001) "alice").1,
   (claim_upsert_only_when_accepted 100 [(⟨-1001, "alice"⟩, ⟨0, 7⟩)] (-1001) "alice").2⟩

/-- C9 counterexample: a successful claim does not always return the message
id stored in the row before the claim.  Here a row exists for
`(-1001, "alice")` with stored `message_id = 0` (the sentinel the claim upsert
itself writes for a fresh slot), outside the debounce window; the claim
succeeds but returns `previous_message_id = none` rather than the stored id
`0` — so `none` is returned in a case where a row did exist. -/
theorem claim_prev_id_none_despite_row :
    lookupSlot [(⟨-1001, "alice"⟩, ⟨0, 0⟩)] ⟨-1001, "alice"⟩ = some ⟨0, 0⟩ ∧
    (claim_notification_slot 100 [(⟨-1001, "alice"⟩, ⟨0, 0⟩)] (-1001) "alice").1
      = (true, none) := by
  decide

/-- C9 as amended: for every slot claim that succeeds (outside the debounce
window), the upsert updates only the slot's timestamp while preserving the
stored message id field (writing the sentinel `0` when no row existed), and
the call returns `(true, p)` where `p` is the message id stored in the row
before this claim when that id is positive, and `none` otherwise — in
particular `none` when no row existed or when the stored id is the
non-positive sentinel. -/
theorem claim_success_returns_positive_prev_id (now : Int) (db : SlotStore)
    (g : Int) (u : String) :
    (∀ row, lookupSlot db ⟨g, u⟩ = some row → ¬(now - row.created_at < 15) →
      claim_notification_slot now db g u =
        ((true, if row.message_id > 0 then some row.message_id else none),
         slotClaimUpsert db ⟨g, u⟩ now) ∧
      lookupSlot (claim_notification_slot now db g u).2 ⟨g, u⟩ =
        some ⟨now, row.message_id⟩) ∧
    (lookupSlot db ⟨g, u⟩ = none →
      claim_notification_slot now db g u =
        ((true, none), slotClaimUpsert db ⟨g, u⟩ now) ∧
      lookupSlot (claim_notification_slot now db g u).2 ⟨g, u⟩ =
        some ⟨now, 0⟩) := by
  constructor
  · intro row hrow hold
    constructor
    · simp [claim_notification_slot, hrow, hold]
    · simp only [claim_notification_slot, hrow, hold, if_false]
      simpa [hrow] using lookupSlot_slotClaimUpsert db ⟨g, u⟩ now
  · intro hnone
    constructor
    · simp [claim_notification_slot, hnone]
    · simp only [claim_notification_slot, hnone]
      simpa [hnone] using lookupSlot_slotClaimUpsert db ⟨g, u⟩ now

/-- Witness for C9's amended statement: a row with stored id 7 written at 0,
claimed at time 100, yields `(true, some 7)` and a row timestamped 100 with id
7 preserved; with no row, the claim yields `(true, none)` and a fresh row with
the sentinel id 0. -/
theorem claim_success_returns_positive_prev_id_witness :
    (claim_notification_slot 100 [(⟨-1001, "alice"⟩, ⟨0, 7⟩)] (-1001) "alice" =
        ((true, some 7), slotClaimUpsert [(⟨-1001, "alice"⟩, ⟨0, 7⟩)] ⟨-1001, "alice"⟩ 100) ∧
      lookupSlot
        (claim_notification_slot 100 [(⟨-1001, "alice"⟩, ⟨0, 7⟩)] (-1001) "alice").2
        ⟨-1001, "alice"⟩ = some ⟨100, 7⟩) ∧
    (claim_notification_slot 100 [] (-1001) "alice" =
        ((true, none), slotClaimUpsert [] ⟨-1001, "alice"⟩ 100) ∧
      lookupSlot (claim_notification_slot 100 [] (-1001) "alice").2
        ⟨-1001, "alice"⟩ = some ⟨100, 0⟩) := by
  constructor
  · have h := (claim_success_returns_positive_prev_id 100
      [(⟨-1001, "alice"⟩, ⟨0, 7⟩)] (-1001) "alice").1 ⟨0, 7⟩ (by decide) (by decide)
    simpa using h
  · exact (claim_success_returns_positive_prev_id 100 [] (-1001) "alice").2 rfl

/-- C2 counterexample: a job whose payload is neither a string nor a dict
(parse failure) with stored `retries = 0` is finalized as `pending` with
`retries = 1` — requeued under the generic retry policy, not finalized
`failed` immediately as the claim states. -/
theorem parse_failure_requeued_pending :
    parsePayload (fun _ => none) PayloadData.otherPayload = none ∧
    processJobThenFinalize (fun _ => none) (fun _ => true) PayloadData.otherPayload 0
      = ⟨"pending", 1⟩ := by
  exact ⟨rfl, rfl⟩

/-- C2 as amended: a payload parse failure makes `process_tgms_job` return a
failure outcome, and the job is then finalized under the same generic retry
policy as any other failure: `pending` with `retries + 1` when the stored
retries are below 3, `failed` (also with `retries + 1`) otherwise.  It is not
finalized `failed` immediately. -/
theorem parse_failure_retry_policy (jsonLoads : String → Option Json)
    (dispatch : Json → Bool) (payload : PayloadData) (retries : Nat)
    (hparse : parsePayload jsonLoads payload = none) :
    processJobThenFinalize jsonLoads dispatch payload retries =
      if retries < 3 then ⟨"pending", retries + 1⟩ else ⟨"failed", retries + 1⟩ := by
  unfold processJobThenFinalize
  rw [hparse]
  by_cases h : retries < 3 <;> simp [finalizeJob, h]

/-- Witness for C2's amended statement: an unparseable string payload with
stored retries 5 is finalized `failed` with retries 6. -/
theorem parse_failure_retry_policy_witness :
    parsePayload (fun _ => none) (PayloadData.strPayload "not valid json") = none ∧
    processJobThenFinalize (fun _ => none) (fun _ => true)
        (PayloadData.strPayload "not valid json") 5 =
      (if 5 < 3 then ⟨"pending", 6⟩ else ⟨"failed", 6⟩) :=
  ⟨rfl, parse_failure_retry_policy (fun _ => none) (fun _ => true)
    (PayloadData.strPayload "not valid json") 5 rfl⟩

/-- C3: finalization maps the handler outcome as the spec states: success
yields status `completed`; failure with stored retries < 3 yields `pending`
with retries incremented by 1; failure with stored retries ≥ 3 yields
`failed`. -/
theorem finalize_outcome_mapping (retries : Nat) :
    (finalizeJob true retries).status = "completed" ∧
    (retries < 3 → finalizeJob false retries = ⟨"pending", retries + 1⟩) ∧
    (3 ≤ retries → (finalizeJob false retries).status = "failed") := by
  refine ⟨rfl, ?_, ?_⟩
  · intro h
    simp [finalizeJob, h]
  · intro h
    simp [finalizeJob, Nat.not_lt.mpr h]

/-- Witness for C3 at the spec's own example inputs: a failed job with stored
retries 2 becomes `pending` with retries 3; with stored retries 3 it becomes
`failed`. -/
theorem finalize_outcome_mapping_witness :
    finalizeJob false 2 = ⟨"pending", 3⟩ ∧ (finalizeJob false 3).status = "failed" :=
  ⟨(finalize_outcome_mapping 2).2.1 (by decide),
   (finalize_outcome_mapping 3).2.2 (by decide)⟩

/-- C10: the stored retries counter is incremented by exactly 1 iff the
handler outcome was failure — including the terminal case, where a job
finalized `failed` at the retry ceiling (stored retries 3) is written with
retries 4 — and on success the counter is left unchanged. -/
theorem finalize_retries_increment_iff_failure (retries : Nat) :
    (finalizeJob true retries).retries = retries ∧
    (finalizeJob false retries).retries = retries + 1 ∧
    finalizeJob false 3 = ⟨"failed", 4⟩ :=
  ⟨rfl, rfl, rfl⟩

/-- C1 (code bug): with recipient "alice" given and the group's notification
slot written 5 seconds before the broadcast (claim time 100, slot timestamp
95), `claim_notification_slot` reports `claimed = false` — yet the broadcast
still attempts the previous-message deletion (of the stored message 7) and
the send for that group and counts it as sent.  The caller's
`if not self.db.claim_notification_slot(...)` tests the truthiness of the
returned 2-tuple, which is always truthy, so the skip branch never runs. -/
theorem slot_rejection_does_not_skip_group :
    (claim_notification_slot 100 [(⟨-1001, "alice"⟩, ⟨95, 7⟩)] (-1001) "alice").1
      = (false, none) ∧
    (send_to_groups 100 (some "alice") (fun _ => .ok 42)
        ⟨[⟨-1001, true, 0, true⟩], [(⟨-1001, "alice"⟩, ⟨95, 7⟩)]⟩).2.2
      = ⟨[(-1001, 7)], [-1001]⟩ ∧
    (send_to_groups 100 (some "alice") (fun _ => .ok 42)
        ⟨[⟨-1001, true, 0, true⟩], [(⟨-1001, "alice"⟩, ⟨95, 7⟩)]⟩).2.1
      = ⟨1, 1, [-1001], []⟩ := by
  decide

/-- C5: a send failure whose error text is critical (contains "403",
"Forbidden", or case-insensitively "kicked") deactivates the group
immediately — whatever its current consecutive-failure counter — and the
counter is not incremented: the group's row afterwards is the old row with
only `is_active` set to false, and the group is recorded as failed. -/
theorem critical_error_immediate_deactivation (now : Int)
    (username : Option String) (db : DBState) (res : StepResults)
    (eff : Effects) (gid : Int) (e : String) (row : GroupRow)
    (hcrit : isCriticalError e = true)
    (hrow : lookupGroup db.groups gid = some row) :
    lookupGroup ((sendPhase now username db res eff gid (.err e)).1).groups gid =
      some { row with is_active := false } ∧
    (sendPhase now username db res eff gid (.err e)).2.1 =
      { res with failed := res.failed ++ [(gid, e)] } := by
  constructor
  · simp only [sendPhase, hcrit, if_true, deactivate_group]
    rw [lookupGroup_updateGroup (fun r => { r with is_active := false })
      db.groups gid (fun r => rfl), hrow]
    rfl
  · simp [sendPhase, hcrit]

/-- Witness for C5: a group with 3 accumulated failures hit by a "Forbidden"
error is deactivated at once with its counter untouched. -/
theorem critical_error_immediate_deactivation_witness :
    isCriticalError "Forbidden: bot was kicked from the group chat" = true ∧
    lookupGroup ((sendPhase 0 none ⟨[⟨-1001, true, 3, true⟩], []⟩ ⟨1, 0, [], []⟩
        ⟨[], []⟩ (-1001) (.err "Forbidden: bot was kicked from the group chat")).1).groups
        (-1001) = some ⟨-1001, true, 3, false⟩ ∧
    (sendPhase 0 none ⟨[⟨-1001, true, 3, true⟩], []⟩ ⟨1, 0, [], []⟩ ⟨[], []⟩
        (-1001) (.err "Forbidden: bot was kicked from the group chat")).2.1 =
      ⟨1, 0, [], [(-1001, "Forbidden: bot was kicked from the group chat")]⟩ := by
  refine ⟨by decide, ?_, ?_⟩
  · exact (critical_error_immediate_deactivation 0 none ⟨[⟨-1001, true, 3, true⟩], []⟩
      ⟨1, 0, [], []⟩ ⟨[], []⟩ (-1001) _ ⟨-1001, true, 3, true⟩ (by decide) (by decide)).1
  · exact (critical_error_immediate_deactivation 0 none ⟨[⟨-1001, true, 3, true⟩], []⟩
      ⟨1, 0, [], []⟩ ⟨[], []⟩ (-1001) _ ⟨-1001, true, 3, true⟩ (by decide) (by decide)).2

/-- A run of non-critical failures on a one-group state advances the counter
by one per step, flipping `is_active` to false once the counter reaches 7. -/
theorem sendPhase_err_singleton (now : Int) (gid : Int) (e : String)
    (hcrit : isCriticalError e = false) (j : Nat) (active : Bool)
    (slots : SlotStore) (res : StepResults) (eff : Effects) :
    (sendPhase now none ⟨[⟨gid, true, j, active⟩], slots⟩ res eff gid (.err e)).1 =
      ⟨[⟨gid, true, j + 1, if j + 1 ≥ 7 then false else active⟩], slots⟩ := by
  by_cases h7 : j + 1 ≥ 7
  · simp [sendPhase, hcrit, increment_failure_count, updateGroup, lookupGroup,
      deactivate_group, h7]
  · simp [sendPhase, hcrit, increment_failure_count, updateGroup, lookupGroup,
      deactivate_group, h7]

theorem applyFailures_singleton (now : Int) (gid : Int) (e : String)
    (hcrit : isCriticalError e = false) (k : Nat) : ∀ j : Nat,
    applyFailures now gid e k ⟨[⟨gid, true, j, decide (j < 7)⟩], []⟩ =
      ⟨[⟨gid, true, j + k, decide (j + k < 7)⟩], []⟩ := by
  induction k with
  | zero =>
      intro j
      simp [applyFailures]
  | succ k ih =>
      intro j
      simp only [applyFailures]
      rw [sendPhase_err_singleton now gid e hcrit j (decide (j < 7)) [] _ _]
      have hb : (if j + 1 ≥ 7 then false else decide (j < 7)) = decide (j + 1 < 7) := by
        by_cases h : j + 1 ≥ 7
        · rw [if_pos h]
          symm
          simp only [decide_eq_false_iff_not]
          omega
        · rw [if_neg h]
          have h1 : j < 7 := by omega
          have h2 : j + 1 < 7 := by omega
          simp [h1, h2]
      rw [hb, ih (j + 1)]
      have harith : j + 1 + k = j + (k + 1) := by omega
      rw [harith]

/-- C4: every non-critical send failure increments the group's
consecutive-failure counter by exactly 1 (deactivating when the new value
reaches the threshold 7, leaving `is_active` unchanged below it), and —
starting from an active group with counter 0 — after `k` consecutive
non-critical failures the counter is `k` and the group is active precisely
when `k < 7`: deactivated after exactly 7 failures, still active after
fewer. -/
theorem consecutive_failures_threshold (now : Int) (gid : Int) (e : String)
    (hcrit : isCriticalError e = false) :
    (∀ (username : Option String) (db : DBState) (res : StepResults)
        (eff : Effects) (row : GroupRow),
      lookupGroup db.groups gid = some row →
      lookupGroup ((sendPhase now username db res eff gid (.err e)).1).groups gid =
        some { row with
               consecutive_failures := row.consecutive_failures + 1,
               is_active := (if row.consecutive_failures + 1 ≥ 7 then false
                            else row.is_active) }) ∧
    (∀ k, lookupGroup
        ((applyFailures now gid e k ⟨[⟨gid, true, 0, true⟩], []⟩).groups) gid =
      some ⟨gid, true, k, decide (k < 7)⟩) := by
  constructor
  · intro username db res eff row hrow
    have h1 : lookupGroup (updateGroup
        (fun r => { r with consecutive_failures := r.consecutive_failures + 1 })
        db.groups gid) gid
        = some { row with consecutive_failures := row.consecutive_failures + 1 } := by
      rw [lookupGroup_updateGroup
        (fun r => { r with consecutive_failures := r.consecutive_failures + 1 })
        db.groups gid (fun r => rfl), hrow]
      rfl
    have h2 : lookupGroup (updateGroup (fun r => { r with is_active := false })
        (updateGroup
          (fun r => { r with consecutive_failures := r.consecutive_failures + 1 })
          db.groups gid) gid) gid
        = some { row with
                 consecutive_failures := row.consecutive_failures + 1,
                 is_active := false } := by
      rw [lookupGroup_updateGroup (fun r => { r with is_active := false })
        _ gid (fun r => rfl), h1]
      rfl
    by_cases h7 : row.consecutive_failures + 1 ≥ 7
    · simp [sendPhase, hcrit, increment_failure_count, h1, h2, h7, deactivate_group]
    · simp [sendPhase, hcrit, increment_failure_count, h1, h7]
  · intro k
    rw [show (⟨[⟨gid, true, 0, true⟩], []⟩ : DBState)
        = ⟨[⟨gid, true, 0, decide (0 < 7)⟩], []⟩ from rfl,
      applyFailures_singleton now gid e hcrit k 0]
    simp [lookupGroup]

/-- Witness for C4: with a generic timeout error, 6 consecutive failures
leave the group active with counter 6; the 7th deactivates it. -/
theorem consecutive_failures_threshold_witness :
    isCriticalError "Connection timed out" = false ∧
    lookupGroup ((applyFailures 0 (-1001) "Connection timed out" 6
        ⟨[⟨-1001, true, 0, true⟩], []⟩).groups) (-1001)
      = some ⟨-1001, true, 6, true⟩ ∧
    lookupGroup ((applyFailures 0 (-1001) "Connection timed out" 7
        ⟨[⟨-1001, true, 0, true⟩], []⟩).groups) (-1001)
      = some ⟨-1001, true, 7, false⟩ := by
  refine ⟨by decide, ?_, ?_⟩
  · exact (consecutive_failures_threshold 0 (-1001) "Connection timed out"
      (by decide)).2 6
  · exact (consecutive_failures_threshold 0 (-1001) "Connection timed out"
      (by decide)).2 7

/-- One link-cycling send on a record with a configured (non-empty) link list
and stored index `i` selects the link at `(i + 1) mod N` and persists that
index. -/
theorem selectWatchLink_cycle (s : String) (i : Int) (g l : Option String)
    (hs : splitLinks s ≠ []) :
    selectWatchLink ⟨some s, some i, g, l⟩ =
      (some ((splitLinks s).getD
        ((i + 1) % ((splitLinks s).length : Int)).toNat ""),
       ⟨some s, some ((i + 1) % ((splitLinks s).length : Int)), g, l⟩) := by
  have hs' : s ≠ "" := by
    intro h
    subst h
    exact hs (by decide)
  simp [selectWatchLink, hs', hs]

theorem runSends_cycle (s : String) (g l : Option String)
    (hs : splitLinks s ≠ []) (k : Nat) : ∀ i : Int,
    runSends ⟨some s, some i, g, l⟩ k =
      (List.range k).map (fun (t : Nat) =>
        (some ((splitLinks s).getD
          (((i + 1 + (t : Int)) % ((splitLinks s).length : Int)).toNat) ""),
         some ((i + 1 + (t : Int)) % ((splitLinks s).length : Int)))) := by
  induction k with
  | zero =>
      intro i
      rfl
  | succ k ih =>
      intro i
      rw [List.range_succ_eq_map]
      simp only [runSends, selectWatchLink_cycle s i g l hs, List.map_cons,
        List.map_map, ih]
      have key : ∀ t : Int,
          ((i + 1) % ((splitLinks s).length : Int) + 1 + t)
              % ((splitLinks s).length : Int)
            = (i + 1 + (t + 1)) % ((splitLinks s).length : Int) := by
        intro t
        rw [add_assoc, Int.emod_add_emod]
        congr 1
        ring
      congr 1
      · simp
      · apply List.map_congr_left
        intro t ht
        simp only [Function.comp_apply]
        push_cast
        rw [key (t : Int)]

theorem cycle_indices_injective (N : Nat) (i : Int) :
    ∀ t1 ∈ List.range N, ∀ t2 ∈ List.range N,
      (i + 1 + (t1 : Int)) % (N : Int) = (i + 1 + (t2 : Int)) % (N : Int) →
      t1 = t2 := by
  intro t1 h1 t2 h2 heq
  rw [List.mem_range] at h1 h2
  rw [Int.emod_eq_emod_iff_emod_sub_eq_zero] at heq
  have hsub : (i + 1 + (t1 : Int)) - (i + 1 + (t2 : Int)) = (t1 : Int) - t2 := by
    ring
  rw [hsub] at heq
  have hd : (N : Int) ∣ ((t1 : Int) - (t2 : Int)) := Int.dvd_of_emod_eq_zero heq
  have habs : |(t1 : Int) - (t2 : Int)| < (N : Int) := by
    rw [abs_lt]
    constructor <;> omega
  have := Int.eq_zero_of_abs_lt_dvd hd habs
  omega

theorem cycle_indices_surjective (N : Nat) (hN : 0 < N) (i : Int) (j : Nat)
    (hj : j < N) :
    ∃ t ∈ List.range N, (i + 1 + (t : Int)) % (N : Int) = (j : Int) := by
  have hNZ : (N : Int) ≠ 0 := by
    exact_mod_cast Nat.pos_iff_ne_zero.mp hN
  have hNpos : (0 : Int) < (N : Int) := by exact_mod_cast hN
  have h0 : 0 ≤ ((j : Int) - (i + 1)) % (N : Int) := Int.emod_nonneg _ hNZ
  have hlt : ((j : Int) - (i + 1)) % (N : Int) < (N : Int) :=
    Int.emod_lt_of_pos _ hNpos
  refine ⟨(((j : Int) - (i + 1)) % (N : Int)).toNat, ?_, ?_⟩
  · rw [List.mem_range]
    omega
  · rw [Int.toNat_of_nonneg h0, Int.add_emod_emod]
    have : i + 1 + ((j : Int) - (i + 1)) = (j : Int) := by ring
    rw [this]
    exact Int.emod_eq_of_lt (by exact_mod_cast Nat.zero_le j) (by exact_mod_cast hj)

/-- C8: for a recipient whose configured link list (the non-empty split of
`monetized_url`) has length `N` and whose stored last-used index is `i`, each
send selects index `(i + 1) mod N` and persists it; over `N` consecutive
sends the persisted indices are `(i+1) mod N, (i+2) mod N, …, (i+N) mod N` in
order — pairwise distinct, and each position `j < N` (hence each configured
link) is used exactly once before any repeats. -/
theorem link_cycling_round_robin (s : String) (i : Int) (g l : Option String)
    (hs : splitLinks s ≠ []) :
    selectWatchLink ⟨some s, some i, g, l⟩ =
      (some ((splitLinks s).getD
        ((i + 1) % ((splitLinks s).length : Int)).toNat ""),
       ⟨some s, some ((i + 1) % ((splitLinks s).length : Int)), g, l⟩) ∧
    runSends ⟨some s, some i, g, l⟩ (splitLinks s).length =
      (List.range (splitLinks s).length).map (fun (t : Nat) =>
        (some ((splitLinks s).getD
          (((i + 1 + (t : Int)) % ((splitLinks s).length : Int)).toNat) ""),
         some ((i + 1 + (t : Int)) % ((splitLinks s).length : Int)))) ∧
    ((runSends ⟨some s, some i, g, l⟩ (splitLinks s).length).map Prod.snd).Nodup ∧
    (∀ j : Nat, j < (splitLinks s).length →
      some ((j : Int)) ∈
        (runSends ⟨some s, some i, g, l⟩ (splitLinks s).length).map Prod.snd) := by
  have hN : 0 < (splitLinks s).length := List.length_pos.mpr hs
  have hrun := runSends_cycle s g l hs (splitLinks s).length i
  have hmap : (runSends ⟨some s, some i, g, l⟩ (splitLinks s).length).map Prod.snd
      = (List.range (splitLinks s).length).map (fun (t : Nat) =>
          some ((i + 1 + (t : Int)) % ((splitLinks s).length : Int))) := by
    rw [hrun, List.map_map]
    rfl
  have hnodup : ((runSends ⟨some s, some i, g, l⟩
      (splitLinks s).length).map Prod.snd).Nodup := by
    rw [hmap]
    apply List.Nodup.map_on ?_ (List.nodup_range _)
    intro t1 h1 t2 h2 hsome
    have := Option.some.inj hsome
    exact cycle_indices_injective (splitLinks s).length i t1 h1 t2 h2 this
  refine ⟨selectWatchLink_cycle s i g l hs, hrun, hnodup, ?_⟩
  intro j hj
  rw [hmap, List.mem_map]
  obtain ⟨t, ht, hteq⟩ := cycle_indices_surjective (splitLinks s).length hN i j hj
  exact ⟨t, ht, by rw [hteq]⟩

/-- Witness for C8: recipient configured with links "a", "b", "c" (N = 3) and
stored index 0: the three consecutive sends select "b", "c", "a" and persist
indices 1, 2, 0 — each link exactly once. -/
theorem link_cycling_round_robin_witness :
    splitLinks "a\nb\nc" ≠ [] ∧
    runSends ⟨some "a\nb\nc", some 0, none, none⟩ (splitLinks "a\nb\nc").length =
      [(some "b", some 1), (some "c", some 2), (some "a", some 0)] := by
  refine ⟨by decide, ?_⟩
  rw [(link_cycling_round_robin "a\nb\nc" 0 none none (by decide)).2.1]
  decide

end TgmsWorker
